import Mathlib

/-!
Shallow embedding of the GPU command-recording layer of the repository
(`src/gpu/src/command_buffer.rs` and `src/gpu/src/types.rs`).

Modelling conventions:
* Machine handles (`vk::Buffer`, `vk::Queue`, semaphores, pipelines, ...) are
  modelled as `Nat` identifiers; bitmask arguments (`PipelineStageFlags`,
  `AccessFlags`, `DependencyFlags`, ...) are `Nat` values that the layer only
  passes through.
* `f32` quantities (clear colors, viewport coordinates) are carried by `ℚ`:
  the layer never computes with them, it only copies them, and every `f32`
  value is a rational, so `ℚ` is a faithful carrier.
* Calls into the native driver are recorded as an event trace
  (`List NativeCall`); driver results are modelled as success, since the
  claims under study concern which calls are issued, not driver failures.
* Rust panics (`panic!`, `assert!`, `expect`) are modelled by `Option`/
  explicit outcome types.
-/

namespace Vkl

/-- `vk::Extent2D`. -/
structure Extent2D where
  width : Nat
  height : Nat
deriving DecidableEq, Repr

/-- `vk::Offset2D`. -/
structure Offset2D where
  x : Int
  y : Int
deriving DecidableEq, Repr

/-- `vk::Rect2D`. -/
structure Rect2D where
  offset : Offset2D
  extent : Extent2D
deriving DecidableEq, Repr

/-- `vk::Viewport` (all fields `f32` in the source, carried by `ℚ` here). -/
structure Viewport where
  x : ℚ
  y : ℚ
  width : ℚ
  height : ℚ
  minDepth : ℚ
  maxDepth : ℚ
deriving DecidableEq, Repr

/-- An image layout identifier (`vk::ImageLayout`); the layer passes layouts
through without interpreting them. -/
abbrev ImageLayout := Nat

/-- `vk::AttachmentLoadOp`. -/
inductive VkAttachmentLoadOp where
  | dontCare
  | load
  | clear
deriving DecidableEq, Repr

/-- `vk::AttachmentStoreOp`. -/
inductive VkAttachmentStoreOp where
  | dontCare
  | store
deriving DecidableEq, Repr

/-- `ColorLoadOp` from `command_buffer.rs` (clear color is an `[f32; 4]`). -/
inductive ColorLoadOp where
  | dontCare
  | load
  | clear (color : ℚ × ℚ × ℚ × ℚ)
deriving DecidableEq, Repr

/-- `DepthLoadOp` from `command_buffer.rs`. -/
inductive DepthLoadOp where
  | dontCare
  | load
  | clear (depth : ℚ)
deriving DecidableEq, Repr

/-- `StencilLoadOp` from `command_buffer.rs` (clear value is a `u8`). -/
inductive StencilLoadOp where
  | dontCare
  | load
  | clear (stencil : Nat)
deriving DecidableEq, Repr

/-- `AttachmentStoreOp` from `command_buffer.rs`. -/
inductive AttachmentStoreOp where
  | dontCare
  | store
deriving DecidableEq, Repr

/-- `impl ToVk for ColorLoadOp`. -/
def ColorLoadOp.toVk : ColorLoadOp → VkAttachmentLoadOp
  | .dontCare => .dontCare
  | .load => .load
  | .clear _ => .clear

/-- `impl ToVk for DepthLoadOp`. -/
def DepthLoadOp.toVk : DepthLoadOp → VkAttachmentLoadOp
  | .dontCare => .dontCare
  | .load => .load
  | .clear _ => .clear

/-- `impl ToVk for StencilLoadOp`. -/
def StencilLoadOp.toVk : StencilLoadOp → VkAttachmentLoadOp
  | .dontCare => .dontCare
  | .load => .load
  | .clear _ => .clear

/-- `impl ToVk for AttachmentStoreOp`. -/
def AttachmentStoreOp.toVk : AttachmentStoreOp → VkAttachmentStoreOp
  | .dontCare => .dontCare
  | .store => .store

/-- `vk::ClearValue` is a C union; the recorder stores either a float color, a
depth/stencil pair, or the zeroed `ClearValue::default()`. -/
inductive ClearValue where
  | color (c : ℚ × ℚ × ℚ × ℚ)
  | depthStencil (depth : ℚ) (stencil : Nat)
  | zeroed
deriving DecidableEq, Repr

/-- The fields of `vk::RenderingAttachmentInfoKHR` that `RenderPassCommand::new`
fills with caller data (the resolve fields are constantly `NONE`/null and the
`s_type`/`p_next` C-ABI fields are omitted). -/
structure RenderingAttachmentInfo where
  imageView : Nat
  imageLayout : ImageLayout
  loadOp : VkAttachmentLoadOp
  storeOp : VkAttachmentStoreOp
  clearValue : ClearValue
deriving DecidableEq, Repr

/-- The caller-facing `ColorAttachment` struct. -/
structure ColorAttachment where
  imageView : Nat
  loadOp : ColorLoadOp
  storeOp : AttachmentStoreOp
  initialLayout : ImageLayout
deriving DecidableEq, Repr

/-- The caller-facing `DepthAttachment` struct. -/
structure DepthAttachment where
  imageView : Nat
  loadOp : DepthLoadOp
  storeOp : AttachmentStoreOp
  initialLayout : ImageLayout
deriving DecidableEq, Repr

/-- The caller-facing `StencilAttachment` struct. -/
structure StencilAttachment where
  imageView : Nat
  loadOp : StencilLoadOp
  storeOp : AttachmentStoreOp
  initialLayout : ImageLayout
deriving DecidableEq, Repr

/-- `BeginRenderPassInfo` from `command_buffer.rs`. -/
structure BeginRenderPassInfo where
  colorAttachments : List ColorAttachment
  depthAttachment : Option DepthAttachment
  stencilAttachment : Option StencilAttachment
  renderArea : Rect2D
deriving DecidableEq, Repr

/-- The color-attachment conversion performed inside `RenderPassCommand::new`:
load/store ops via `to_vk`, and the clear value taken from `Clear(color)`
(otherwise `ClearValue::default()`). -/
def colorAttachmentInfo (a : ColorAttachment) : RenderingAttachmentInfo :=
  { imageView := a.imageView
    imageLayout := a.initialLayout
    loadOp := a.loadOp.toVk
    storeOp := a.storeOp.toVk
    clearValue :=
      match a.loadOp with
      | .clear c => .color c
      | _ => .zeroed }

/-- The depth-attachment conversion inside `RenderPassCommand::new` (a depth
clear also writes the constant stencil value 255). -/
def depthAttachmentInfo (a : DepthAttachment) : RenderingAttachmentInfo :=
  { imageView := a.imageView
    imageLayout := a.initialLayout
    loadOp := a.loadOp.toVk
    storeOp := a.storeOp.toVk
    clearValue :=
      match a.loadOp with
      | .clear d => .depthStencil d 255
      | _ => .zeroed }

/-- The stencil-attachment conversion inside `RenderPassCommand::new` (a
stencil clear writes depth 0.0). -/
def stencilAttachmentInfo (a : StencilAttachment) : RenderingAttachmentInfo :=
  { imageView := a.imageView
    imageLayout := a.initialLayout
    loadOp := a.loadOp.toVk
    storeOp := a.storeOp.toVk
    clearValue :=
      match a.loadOp with
      | .clear s => .depthStencil 0 s
      | _ => .zeroed }

/-- The fields of `vk::RenderingInfoKHR` built by `RenderPassCommand::new`
(`flags` is empty, `layer_count` 1 and `view_mask` 0, constants omitted). -/
structure RenderingInfo where
  renderArea : Rect2D
  colorAttachments : List RenderingAttachmentInfo
  depthAttachment : Option RenderingAttachmentInfo
  stencilAttachment : Option RenderingAttachmentInfo
deriving DecidableEq, Repr

/-- The `RenderingInfoKHR` assembled by `RenderPassCommand::new` from a
`BeginRenderPassInfo`. -/
def renderingInfoOf (info : BeginRenderPassInfo) : RenderingInfo :=
  { renderArea := info.renderArea
    colorAttachments := info.colorAttachments.map colorAttachmentInfo
    depthAttachment := info.depthAttachment.map depthAttachmentInfo
    stencilAttachment := info.stencilAttachment.map stencilAttachmentInfo }

/-- `MemoryBarrier` from `command_buffer.rs`; `to_vk` copies these fields
verbatim into `vk::MemoryBarrier`. -/
structure MemoryBarrier where
  srcAccessMask : Nat
  dstAccessMask : Nat
deriving DecidableEq, Repr

/-- `BufferMemoryBarrier`; `to_vk` copies the fields and takes the buffer's
native handle. -/
structure BufferMemoryBarrier where
  srcAccessMask : Nat
  dstAccessMask : Nat
  srcQueueFamilyIndex : Nat
  dstQueueFamilyIndex : Nat
  buffer : Nat
  offset : Nat
  size : Nat
deriving DecidableEq, Repr

/-- `ImageMemoryBarrier`; `to_vk` copies the fields and takes the image's
native handle. -/
structure ImageMemoryBarrier where
  srcAccessMask : Nat
  dstAccessMask : Nat
  oldLayout : ImageLayout
  newLayout : ImageLayout
  srcQueueFamilyIndex : Nat
  dstQueueFamilyIndex : Nat
  image : Nat
  subresourceRange : Nat
deriving DecidableEq, Repr

/-- `PipelineBarrierInfo` from `command_buffer.rs`. -/
structure PipelineBarrierInfo where
  srcStageMask : Nat
  dstStageMask : Nat
  dependencyFlags : Nat
  memoryBarriers : List MemoryBarrier
  bufferMemoryBarriers : List BufferMemoryBarrier
  imageMemoryBarriers : List ImageMemoryBarrier
deriving DecidableEq, Repr

/-- `CommandBufferSubmitInfo` from `command_buffer.rs`: wait semaphores, wait
stage masks, signal semaphores and an optional fence. -/
structure CommandBufferSubmitInfo where
  waitSemaphores : List Nat
  waitStages : List Nat
  signalSemaphores : List Nat
  fence : Option Nat
deriving DecidableEq, Repr

/-- The `#[derive(Default)]` value: empty slices and no fence. -/
def CommandBufferSubmitInfo.default : CommandBufferSubmitInfo :=
  { waitSemaphores := [], waitStages := [], signalSemaphores := [], fence := none }

/-- The data handed to the native `queue_submit` call: one `vk::SubmitInfo`
plus the fence argument (`none` models `vk::Fence::null()`). -/
structure QueueSubmission where
  waitSemaphores : List Nat
  waitStages : List Nat
  commandBuffers : List Nat
  signalSemaphores : List Nat
  fence : Option Nat
deriving DecidableEq, Repr

/-- One call into the native driver, as recorded by the layer. -/
inductive NativeCall where
  | cmdBeginRendering (info : RenderingInfo)
  | cmdEndRendering
  | cmdPipelineBarrier (srcStageMask dstStageMask dependencyFlags : Nat)
      (memoryBarriers : List MemoryBarrier)
      (bufferMemoryBarriers : List BufferMemoryBarrier)
      (imageMemoryBarriers : List ImageMemoryBarrier)
  | cmdBindDescriptorSets (bindPoint pipelineLayout firstIndex : Nat) (sets : List Nat)
  | cmdBindPipeline (pipeline : Nat)
  | cmdSetViewport (v : Viewport)
  | cmdSetScissor (r : Rect2D)
  | cmdDraw (vertexCount instanceCount firstVertex firstInstance : Nat)
  | cmdDrawIndexed (indexCount instanceCount firstIndex : Nat)
      (vertexOffset : Int) (firstInstance : Nat)
  | cmdBindIndexBuffer (buffer offset indexType : Nat)
  | cmdBindVertexBuffers (firstBinding : Nat) (buffers offsets : List Nat)
  | cmdPushConstants (pipelineLayout offset : Nat) (bytes : List Nat)
  | cmdInsertDebugLabel (label : Nat) (color : ℚ × ℚ × ℚ × ℚ)
  | endCommandBuffer
  | queueSubmit (queue : Nat) (s : QueueSubmission)
deriving DecidableEq, Repr

/-- The owned fields of the Rust `CommandBuffer` struct (the `gpu` borrow is
represented by the `debugUtils` capability flag, the only piece of `Gpu` state
the modelled operations branch on). -/
structure CommandBuffer where
  innerCommandBuffer : Nat
  hasRecordedAnything : Bool
  hasBeenSubmitted : Bool
  targetQueue : Nat
  debugUtils : Bool
deriving DecidableEq, Repr

/-- The owned fields of `RenderPassCommand` (the `&mut CommandBuffer` borrow is
modelled by `RecorderState.activePass`). No method of the source ever sets
`viewport_area` or `scissor_area`; the fields exist and stay `None`. -/
structure RenderPassCommandData where
  viewportArea : Option Viewport
  scissorArea : Option Rect2D
  hasDrawCommand : Bool
  renderArea : Rect2D
deriving DecidableEq, Repr

/-- The state visible to a single-threaded recorder: the command buffer plus
the render-pass handle currently mut-borrowing it, if any.  `activePass = none`
is the spec state `Recording`; `activePass = some rp` is `RenderPassActive`. -/
structure RecorderState where
  cb : CommandBuffer
  activePass : Option RenderPassCommandData
deriving DecidableEq, Repr

/-- The state produced by `CommandBuffer::new` (both flags false, recording
begun, no render pass active). -/
def RecorderState.fresh (handle queue : Nat) (debugUtils : Bool) : RecorderState :=
  { cb :=
      { innerCommandBuffer := handle
        hasRecordedAnything := false
        hasBeenSubmitted := false
        targetQueue := queue
        debugUtils := debugUtils }
    activePass := none }

/-- The operations a caller can attempt while the command buffer is alive
(submission and destruction consume the buffer and are modelled separately as
lifecycle finishers, mirroring Rust move semantics). -/
inductive Op where
  | beginRenderPass (info : BeginRenderPassInfo)
  | endRenderPass
  | pipelineBarrier (info : PipelineBarrierInfo)
  | bindDescriptorSets (bindPoint pipelineLayout firstIndex : Nat) (sets : List Nat)
  | bindPipeline (pipeline : Nat)
  | draw (vertexCount instanceCount firstVertex firstInstance : Nat)
  | drawIndexed (indexCount instanceCount firstIndex : Nat)
      (vertexOffset : Int) (firstInstance : Nat)
  | bindIndexBuffer (buffer offset indexType : Nat)
  | bindVertexBuffer (firstBinding : Nat) (buffers offsets : List Nat)
  | pushConstant (pipelineLayout offset : Nat) (bytes : List Nat)
  | insertDebugLabel (label : Nat) (color : ℚ × ℚ × ℚ × ℚ)
deriving DecidableEq, Repr

/-- The Rust receiver through which each operation is reached. -/
inductive Receiver where
  | cbMut
  | cbShared
  | rpc
deriving DecidableEq, Repr

/-- Receiver of each operation, read off the source signatures:
`begin_render_pass` and `pipeline_barrier` take `&mut self` on
`CommandBuffer`; `bind_descriptor_sets` and `insert_debug_label` take `&self`
on `CommandBuffer`; the rest are `RenderPassCommand` methods (ending the pass
is the drop of the `RenderPassCommand` value). -/
def Op.receiver : Op → Receiver
  | .beginRenderPass _ => .cbMut
  | .pipelineBarrier _ => .cbMut
  | .bindDescriptorSets .. => .cbShared
  | .insertDebugLabel .. => .cbShared
  | .endRenderPass => .rpc
  | .bindPipeline _ => .rpc
  | .draw .. => .rpc
  | .drawIndexed .. => .rpc
  | .bindIndexBuffer .. => .rpc
  | .bindVertexBuffer .. => .rpc
  | .pushConstant .. => .rpc

/-- Whether an operation is expressible in the given state, by Rust's borrow
rules: while a `RenderPassCommand` is alive it holds the only (mutable) path to
the `CommandBuffer`, whose `&self` methods remain reachable through
`Deref<Target = CommandBuffer>` but whose `&mut self` methods are not; with no
render pass alive, no `RenderPassCommand` method can be named. -/
def permitted (s : RecorderState) (op : Op) : Bool :=
  match s.activePass, op.receiver with
  | none, .cbMut => true
  | none, .cbShared => true
  | none, .rpc => false
  | some _, .cbMut => false
  | some _, .cbShared => true
  | some _, .rpc => true

/-- `RenderPassCommand::prepare_draw`: when no explicit viewport/scissor is
set, derive them from the render area.  The source reads
`height = render_area.extent.height as f32` and uses it, together with
`x = 0, y = 0.0`, as the viewport height (the adjacent comment announces a
negation that the code does not perform). -/
def prepareDrawCalls (rp : RenderPassCommandData) : List NativeCall :=
  let height : ℚ := rp.renderArea.extent.height
  let viewport := rp.viewportArea.getD
    { x := 0, y := 0, width := rp.renderArea.extent.width, height := height
      minDepth := 0, maxDepth := 1 }
  let scissor := rp.scissorArea.getD
    { offset := { x := 0, y := 0 }, extent := rp.renderArea.extent }
  [NativeCall.cmdSetViewport viewport, NativeCall.cmdSetScissor scissor]

/-- One recording step: the state change and the native calls it issues,
following the bodies of the corresponding source methods.  Operations that
Rust's borrow rules exclude (`permitted` false) are given the identity
semantics; every theorem that inspects `step` assumes `permitted`. -/
def step (s : RecorderState) (op : Op) : RecorderState × List NativeCall :=
  match op with
  | .beginRenderPass info =>
      let rp : RenderPassCommandData :=
        { viewportArea := none, scissorArea := none
          hasDrawCommand := false, renderArea := info.renderArea }
      ({ s with activePass := some rp },
        [NativeCall.cmdBeginRendering (renderingInfoOf info)])
  | .endRenderPass =>
      ({ s with activePass := none }, [NativeCall.cmdEndRendering])
  | .pipelineBarrier info =>
      ({ s with cb := { s.cb with hasRecordedAnything := true } },
        [NativeCall.cmdPipelineBarrier info.srcStageMask info.dstStageMask
          info.dependencyFlags info.memoryBarriers info.bufferMemoryBarriers
          info.imageMemoryBarriers])
  | .bindDescriptorSets bp layout fi sets =>
      (s, [NativeCall.cmdBindDescriptorSets bp layout fi sets])
  | .bindPipeline p =>
      (s, [NativeCall.cmdBindPipeline p])
  | .draw a b c d =>
      match s.activePass with
      | some rp =>
          let s1 : RecorderState :=
            { cb := { s.cb with hasRecordedAnything := true }
              activePass := some { rp with hasDrawCommand := true } }
          (s1, prepareDrawCalls rp ++ [NativeCall.cmdDraw a b c d])
      | none => (s, [])
  | .drawIndexed a b c d e =>
      match s.activePass with
      | some rp =>
          let s1 : RecorderState :=
            { cb := { s.cb with hasRecordedAnything := true }
              activePass := some { rp with hasDrawCommand := true } }
          (s1, prepareDrawCalls rp ++ [NativeCall.cmdDrawIndexed a b c d e])
      | none => (s, [])
  | .bindIndexBuffer buf off ty =>
      (s, [NativeCall.cmdBindIndexBuffer buf off ty])
  | .bindVertexBuffer fb bufs offs =>
      (s, [NativeCall.cmdBindVertexBuffers fb bufs offs])
  | .pushConstant layout off bytes =>
      (s, [NativeCall.cmdPushConstants layout off bytes])
  | .insertDebugLabel l c =>
      (s, if s.cb.debugUtils then [NativeCall.cmdInsertDebugLabel l c] else [])

/-- Run a list of recording operations, accumulating the native-call trace. -/
def runOps : RecorderState → List Op → RecorderState × List NativeCall
  | s, [] => (s, [])
  | s, op :: rest =>
      let p := step s op
      let q := runOps p.1 rest
      (q.1, p.2 ++ q.2)

/-- A list of operations each of which is expressible (borrow-checks) in the
state where it is attempted. -/
def validOps : RecorderState → List Op → Bool
  | _, [] => true
  | s, op :: rest => permitted s op && validOps (step s op).1 rest

/-- `VkResult` as far as the model needs it; driver calls are modelled as
succeeding. -/
inductive VkResult where
  | success
deriving DecidableEq, Repr

/-- `CommandBuffer::submit(mut self, submit_info)`: first set
`has_been_submitted`; if nothing was recorded return `Ok(())` with no native
call; otherwise end the native command buffer and issue exactly one
`queue_submit` built from the caller-supplied semaphores, stage masks and
optional fence. -/
def CommandBuffer.submitRun (cb : CommandBuffer) (si : CommandBufferSubmitInfo) :
    CommandBuffer × List NativeCall × VkResult :=
  let cb := { cb with hasBeenSubmitted := true }
  if !cb.hasRecordedAnything then
    (cb, [], VkResult.success)
  else
    let sub : QueueSubmission :=
      { waitSemaphores := si.waitSemaphores
        waitStages := si.waitStages
        commandBuffers := [cb.innerCommandBuffer]
        signalSemaphores := si.signalSemaphores
        fence := si.fence }
    (cb, [NativeCall.endCommandBuffer, NativeCall.queueSubmit cb.targetQueue sub],
      VkResult.success)

/-- `impl Drop for CommandBuffer`: panic unless `has_been_submitted`. -/
inductive DropOutcome where
  | ok
  | panicked
deriving DecidableEq, Repr

/-- The drop glue of `CommandBuffer`. -/
def CommandBuffer.dropRun (cb : CommandBuffer) : DropOutcome :=
  if cb.hasBeenSubmitted then DropOutcome.ok else DropOutcome.panicked

/-- How a command buffer's lifetime ends: `submit` consumes the value, and
otherwise the value is dropped.  Because `submit` takes `self` by value, Rust
makes a second submission of the same buffer unwritable; a `Lifecycle`
therefore contains at most one submission by construction. -/
inductive Finisher where
  | submitCb (si : CommandBufferSubmitInfo)
  | dropCb
deriving DecidableEq, Repr

/-- One full recording/submission cycle of a command buffer. -/
structure Lifecycle where
  ops : List Op
  finisher : Finisher
deriving DecidableEq, Repr

/-- Number of `submit` calls a lifecycle performs. -/
def Lifecycle.submitCount (l : Lifecycle) : Nat :=
  match l.finisher with
  | .submitCb _ => 1
  | .dropCb => 0

/-- A lifecycle is expressible in Rust when every operation borrow-checks and
the finisher is reached with no `RenderPassCommand` alive (the render-pass
handle mut-borrows the buffer, so `submit`/drop of the buffer are only
writable after the handle is gone). -/
def validLifecycle (s : RecorderState) (l : Lifecycle) : Bool :=
  validOps s l.ops && (runOps s l.ops).1.activePass.isNone

/-- Result of running a lifecycle: the native-call trace plus whether the
final drop panicked. -/
inductive Outcome where
  | completed (calls : List NativeCall) (res : VkResult)
  | panicked (calls : List NativeCall)
deriving DecidableEq, Repr

/-- Run a whole lifecycle.  A `submit` finisher runs `submit` (which consumes
and then drops the buffer with `has_been_submitted` set, so its drop cannot
panic); a `drop` finisher runs the drop glue. -/
def runLifecycle (s : RecorderState) (l : Lifecycle) : Outcome :=
  let r := runOps s l.ops
  match l.finisher with
  | .submitCb si =>
      let sub := r.1.cb.submitRun si
      Outcome.completed (r.2 ++ sub.2.1) sub.2.2
  | .dropCb =>
      match r.1.cb.dropRun with
      | .ok => Outcome.completed r.2 VkResult.success
      | .panicked => Outcome.panicked r.2

/-! ### Resource types (`src/gpu/src/types.rs`)

`MemoryAllocation` and `DescriptorSetAllocation` are declared in the
`allocator`/`descriptor_set` modules, whose sources are not present; their
fields below follow the spec's data model (offset, size, domain, optional
persistent host pointer; descriptor-set handle plus pool slot) and the field
accesses made by `types.rs`. -/

/-- Memory domain identifier (device-local, host-visible, ...). -/
abbrev MemoryDomain := Nat

/-- A device-memory allocation record. -/
structure MemoryAllocation where
  offset : Nat
  size : Nat
  domain : MemoryDomain
  persistentPtr : Option Nat
deriving DecidableEq, Repr

/-- A descriptor-pool slot record; `types.rs` reads its `descriptor_set`
handle. -/
structure DescriptorSetAllocation where
  descriptorSet : Nat
deriving DecidableEq, Repr

/-- The owned fields of `GpuBuffer` (`device` omitted; the shared allocator is
identified by `allocatorId`). -/
structure GpuBuffer where
  inner : Nat
  memoryDomain : MemoryDomain
  allocation : MemoryAllocation
  allocatorId : Nat
deriving DecidableEq, Repr

/-- `ImageFormat` from `types.rs`. -/
inductive ImageFormat where
  | rgba8
  | bgra8
  | srgba8
  | rgb8
  | rgbaFloat
  | depth
deriving DecidableEq, Repr

/-- The owned fields of `GpuImage`: allocation and allocator are optional
because a swapchain image is wrapped without either. -/
structure GpuImage where
  inner : Nat
  allocation : Option MemoryAllocation
  allocatorId : Option Nat
  extents : Extent2D
  format : ImageFormat
deriving DecidableEq, Repr

/-- The owned fields of `GpuDescriptorSet`. -/
structure GpuDescriptorSet where
  inner : Nat
  allocation : DescriptorSetAllocation
  allocatorId : Nat
deriving DecidableEq, Repr

/-- Events emitted while dropping a resource wrapper. -/
inductive ResourceEvent where
  | deallocate (allocatorId : Nat) (a : MemoryAllocation)
  | deallocateDescriptorSet (allocatorId : Nat) (a : DescriptorSetAllocation)
  | destroyBuffer (handle : Nat)
  | destroyImage (handle : Nat)
deriving DecidableEq, Repr

/-- An event that returns capacity to an allocator. -/
def ResourceEvent.isDealloc : ResourceEvent → Bool
  | .deallocate .. => true
  | .deallocateDescriptorSet .. => true
  | _ => false

/-- An event that destroys a native object. -/
def ResourceEvent.isDestroy : ResourceEvent → Bool
  | .destroyBuffer _ => true
  | .destroyImage _ => true
  | _ => false

/-- `impl Drop for GpuBuffer`: deallocate through the owning allocator, then
destroy the native buffer. -/
def GpuBuffer.dropRun (b : GpuBuffer) : List ResourceEvent :=
  [ResourceEvent.deallocate b.allocatorId b.allocation,
   ResourceEvent.destroyBuffer b.inner]

/-- `impl Drop for GpuImage`: when both allocator and allocation are present,
deallocate then destroy the native image; a wrapped (swapchain) image does
nothing. -/
def GpuImage.dropRun (img : GpuImage) : List ResourceEvent :=
  match img.allocatorId, img.allocation with
  | some aid, some alloc =>
      [ResourceEvent.deallocate aid alloc, ResourceEvent.destroyImage img.inner]
  | _, _ => []

/-- `impl Drop for GpuDescriptorSet`: return the pool slot to the owning
allocator (the native set is recycled by the pool, not destroyed here). -/
def GpuDescriptorSet.dropRun (d : GpuDescriptorSet) : List ResourceEvent :=
  [ResourceEvent.deallocateDescriptorSet d.allocatorId d.allocation]

/-- `GpuBuffer::write_data::<I>(offset, data)`.  `elemSize` models
`size_of::<I>()`; each entry of `data` is the byte representation of one
element (of length `elemSize` for a faithful instantiation); `mem` models the
bytes of the mapped allocation.  The source asserts, in order:
`size_of_val(data) > 0`, `offset < allocation.size`,
`data_length + offset <= allocation.size`, and that a persistent pointer
exists; it then copies the `data.len()` elements (that is, `data_length`
bytes) to `persistent_ptr + offset`.  `none` models a panic. -/
def GpuBuffer.writeData (b : GpuBuffer) (mem : List Nat) (offset : Nat)
    (elemSize : Nat) (data : List (List Nat)) : Option (List Nat) :=
  let dataLength := elemSize * data.length
  if dataLength = 0 then none
  else if offset < b.allocation.size then
    if dataLength + offset ≤ b.allocation.size then
      match b.allocation.persistentPtr with
      | none => none
      | some _ =>
          some (mem.take offset ++ data.flatten ++ mem.drop (offset + dataLength))
    else none
  else none

/-! ### Derived notions used by the statements -/

/-- The native-call trace of an outcome. -/
def Outcome.calls : Outcome → List NativeCall
  | .completed calls _ => calls
  | .panicked calls => calls

/-- Render-pass nesting depth of a state (0 or 1). -/
def RecorderState.depth (s : RecorderState) : Nat :=
  if s.activePass.isSome then 1 else 0

/-- The call that opens a dynamic-rendering scope. -/
def isBeginRendering : NativeCall → Bool
  | .cmdBeginRendering _ => true
  | _ => false

/-- The call that closes a dynamic-rendering scope. -/
def isEndRendering : NativeCall → Bool
  | .cmdEndRendering => true
  | _ => false

/-- A native queue submission. -/
def isQueueSubmit : NativeCall → Bool
  | .queueSubmit .. => true
  | _ => false

/-- A call belonging to submission (ending the native buffer or submitting to
the queue) rather than to recording. -/
def isSubmissionCall : NativeCall → Bool
  | .endCommandBuffer => true
  | .queueSubmit .. => true
  | _ => false

/-- The operations whose source bodies set `has_recorded_anything`:
`draw`, `draw_indexed` and `pipeline_barrier`. -/
def Op.isMarking : Op → Bool
  | .draw .. => true
  | .drawIndexed .. => true
  | .pipelineBarrier _ => true
  | _ => false

/-- The event list `evs` returns capacity to an allocator exactly once, and
that return strictly precedes every native-object destruction in `evs`. -/
def deallocatesOnceBeforeDestroy (evs : List ResourceEvent) : Prop :=
  evs.countP ResourceEvent.isDealloc = 1 ∧
  ∀ i j : Fin evs.length, (evs.get i).isDealloc = true →
    (evs.get j).isDestroy = true → (i : Nat) < (j : Nat)

/-- The state-gating table of the operations as the code enforces it, written
from the spec side for comparison with `permitted`: draws, pipeline binds,
vertex/index binds, push constants and ending the pass need an active render
pass; pipeline barriers and beginning a pass need to be outside one;
descriptor-set binds and debug labels are reachable in both states. -/
def claimedPermitted (s : RecorderState) (op : Op) : Bool :=
  match op with
  | .draw .. => s.activePass.isSome
  | .drawIndexed .. => s.activePass.isSome
  | .bindPipeline _ => s.activePass.isSome
  | .bindIndexBuffer .. => s.activePass.isSome
  | .bindVertexBuffer .. => s.activePass.isSome
  | .pushConstant .. => s.activePass.isSome
  | .endRenderPass => s.activePass.isSome
  | .pipelineBarrier _ => s.activePass.isNone
  | .beginRenderPass _ => s.activePass.isNone
  | .bindDescriptorSets .. => true
  | .insertDebugLabel .. => true

/-! ### Concrete inputs used by evaluation theorems -/

/-- The spec §8 clear scenario: one color attachment with load op
`Clear([0,0,0,1])`, store op `Store`. -/
def clearScenarioInfo : BeginRenderPassInfo :=
  { colorAttachments :=
      [{ imageView := 1
         loadOp := ColorLoadOp.clear (0, 0, 0, 1)
         storeOp := AttachmentStoreOp.store
         initialLayout := 2 }]
    depthAttachment := none
    stencilAttachment := none
    renderArea := { offset := { x := 0, y := 0 }, extent := { width := 800, height := 600 } } }

/-- Begin the clear-scenario pass, issue zero draw calls, end the pass,
submit with the default (empty) submit info. -/
def clearScenarioLifecycle : Lifecycle :=
  { ops := [Op.beginRenderPass clearScenarioInfo, Op.endRenderPass]
    finisher := Finisher.submitCb CommandBufferSubmitInfo.default }

/-- A live render pass over an 800x600 render area with no explicit
viewport/scissor set. -/
def viewportScenarioPass : RenderPassCommandData :=
  { viewportArea := none
    scissorArea := none
    hasDrawCommand := false
    renderArea := { offset := { x := 0, y := 0 }, extent := { width := 800, height := 600 } } }

/-- A fresh recorder inside the 800x600 render pass (state
`RenderPassActive`). -/
def passActiveState : RecorderState :=
  { cb := (RecorderState.fresh 0 0 false).cb
    activePass := some viewportScenarioPass }

/-- A 4-byte host-visible buffer with a persistent pointer. -/
def zstScenarioBuffer : GpuBuffer :=
  { inner := 1
    memoryDomain := 0
    allocation := { offset := 0, size := 4, domain := 0, persistentPtr := some 0 }
    allocatorId := 0 }

/-- A pipeline-barrier info with empty barrier lists. -/
def emptyBarrierInfo : PipelineBarrierInfo :=
  { srcStageMask := 0, dstStageMask := 0, dependencyFlags := 0
    memoryBarriers := [], bufferMemoryBarriers := [], imageMemoryBarriers := [] }

/-- A command buffer that has recorded work. -/
def barrierCb : CommandBuffer :=
  { innerCommandBuffer := 0, hasRecordedAnything := true
    hasBeenSubmitted := false, targetQueue := 0, debugUtils := false }

/-- A concrete 256-byte device allocation. -/
def sampleAllocation : MemoryAllocation :=
  { offset := 0, size := 256, domain := 0, persistentPtr := none }

/-- A concrete buffer owning `sampleAllocation`. -/
def sampleBuffer : GpuBuffer :=
  { inner := 5, memoryDomain := 0, allocation := sampleAllocation, allocatorId := 3 }

/-- A concrete allocator-backed image owning `sampleAllocation`. -/
def sampleImage : GpuImage :=
  { inner := 7, allocation := some sampleAllocation, allocatorId := some 3
    extents := { width := 4, height := 4 }, format := ImageFormat.rgba8 }

/-- A concrete descriptor set. -/
def sampleDescriptorSet : GpuDescriptorSet :=
  { inner := 9, allocation := { descriptorSet := 9 }, allocatorId := 4 }

/-- A recording consisting only of non-marking operations: a full render
pass with a pipeline bind but no draw call. -/
def nonMarkingOps : List Op :=
  [Op.beginRenderPass clearScenarioInfo, Op.bindPipeline 5, Op.endRenderPass]

/-! ### Invariants of the recorder -/

/-- No recording operation touches `has_been_submitted`. -/
theorem step_hasBeenSubmitted (s : RecorderState) (op : Op) :
    (step s op).1.cb.hasBeenSubmitted = s.cb.hasBeenSubmitted := by
  cases op <;> cases hA : s.activePass <;> simp [step, hA]

/-- `has_been_submitted` is invariant across a whole recording. -/
theorem runOps_hasBeenSubmitted (ops : List Op) (s : RecorderState) :
    (runOps s ops).1.cb.hasBeenSubmitted = s.cb.hasBeenSubmitted := by
  induction ops generalizing s with
  | nil => rfl
  | cons op rest ih => simpa [runOps, ih] using step_hasBeenSubmitted s op

/-- A permitted recording operation sets `has_recorded_anything` exactly when
it is a draw, an indexed draw or a pipeline barrier. -/
theorem step_hasRecordedAnything (s : RecorderState) (op : Op)
    (h : permitted s op = true) :
    (step s op).1.cb.hasRecordedAnything
      = (s.cb.hasRecordedAnything || op.isMarking) := by
  cases op <;> cases hA : s.activePass <;>
    simp_all [step, permitted, Op.receiver, Op.isMarking, hA]

/-- A valid recording made of non-marking operations leaves
`has_recorded_anything` unchanged. -/
theorem runOps_hasRecordedAnything (ops : List Op) (s : RecorderState)
    (h : validOps s ops = true) (hm : ∀ op ∈ ops, op.isMarking = false) :
    (runOps s ops).1.cb.hasRecordedAnything = s.cb.hasRecordedAnything := by
  induction ops generalizing s with
  | nil => rfl
  | cons op rest ih =>
      simp only [validOps, Bool.and_eq_true] at h
      have hstep := step_hasRecordedAnything s op h.1
      have hmark : op.isMarking = false := hm op (by simp)
      simp only [runOps]
      rw [ih (step s op).1 h.2 (fun o ho => hm o (by simp [ho])), hstep, hmark,
        Bool.or_false]

/-- Recording operations never emit submission calls. -/
theorem step_submission_free (s : RecorderState) (op : Op) :
    ∀ c ∈ (step s op).2, isSubmissionCall c = false := by
  cases op <;> cases hA : s.activePass <;>
    cases hD : s.cb.debugUtils <;>
    simp_all [step, prepareDrawCalls, isSubmissionCall, hA]

/-- A whole recording emits no submission calls. -/
theorem runOps_submission_free (ops : List Op) (s : RecorderState) :
    ∀ c ∈ (runOps s ops).2, isSubmissionCall c = false := by
  induction ops generalizing s with
  | nil => simp [runOps]
  | cons op rest ih =>
      intro c hc
      simp only [runOps, List.mem_append] at hc
      rcases hc with hc | hc
      · exact step_submission_free s op c hc
      · exact ih (step s op).1 c hc

/-- One permitted step preserves the begin/end rendering balance: begins plus
the incoming depth equal ends plus the outgoing depth. -/
theorem step_balance (s : RecorderState) (op : Op) (h : permitted s op = true) :
    (step s op).2.countP isBeginRendering + s.depth
      = (step s op).2.countP isEndRendering + (step s op).1.depth := by
  cases op <;> cases hA : s.activePass <;>
    cases hD : s.cb.debugUtils <;>
    simp_all [step, permitted, Op.receiver, RecorderState.depth, prepareDrawCalls,
      isBeginRendering, isEndRendering, hA]

/-- A valid recording keeps begins and ends balanced against the depth
change. -/
theorem runOps_balance (ops : List Op) (s : RecorderState)
    (h : validOps s ops = true) :
    (runOps s ops).2.countP isBeginRendering + s.depth
      = (runOps s ops).2.countP isEndRendering + (runOps s ops).1.depth := by
  induction ops generalizing s with
  | nil => rfl
  | cons op rest ih =>
      simp only [validOps, Bool.and_eq_true] at h
      have h1 := step_balance s op h.1
      have h2 := ih (step s op).1 h.2
      simp only [runOps, List.countP_append]
      omega

/-- A deallocation event is not a destruction event. -/
theorem isDealloc_not_isDestroy (e : ResourceEvent) (h : e.isDealloc = true) :
    e.isDestroy = false := by
  cases e <;> simp_all [ResourceEvent.isDealloc, ResourceEvent.isDestroy]

/-- A two-event drop sequence that deallocates first satisfies the
release-before-destroy discipline. -/
theorem pair_dealloc_before_destroy (e1 e2 : ResourceEvent)
    (h1 : e1.isDealloc = true) (h2 : e2.isDealloc = false) :
    deallocatesOnceBeforeDestroy [e1, e2] := by
  constructor
  · simp [List.countP_cons, h1, h2]
  · intro i j hi hj
    fin_cases i <;> fin_cases j <;>
      simp_all [isDealloc_not_isDestroy e1 h1]

/-- A one-event drop sequence that only deallocates satisfies the
release-before-destroy discipline. -/
theorem single_dealloc_before_destroy (e : ResourceEvent)
    (h : e.isDealloc = true) :
    deallocatesOnceBeforeDestroy [e] := by
  constructor
  · simp [List.countP_cons, h]
  · intro i j hi hj
    fin_cases j
    simp_all [isDealloc_not_isDestroy e h]

/-! ### Claims -/

/-- C1: every command buffer is submitted exactly once.  Dropping a command
buffer on which `submit` was never called runs the drop glue with
`has_been_submitted` still false and panics — deterministically, since the
whole model is a function of the recording; and because `submit` takes the
buffer by value, a lifecycle contains at most one submission by construction
(double submit is statically impossible). -/
theorem c1_drop_without_submit_panics
    (handle queue : Nat) (dbg : Bool) (ops : List Op) (l : Lifecycle)
    (h : validOps (RecorderState.fresh handle queue dbg) ops = true) :
    runLifecycle (RecorderState.fresh handle queue dbg) ⟨ops, Finisher.dropCb⟩
      = Outcome.panicked (runOps (RecorderState.fresh handle queue dbg) ops).2
    ∧ l.submitCount ≤ 1 := by
  constructor
  · have hsub : (runOps (RecorderState.fresh handle queue dbg) ops).1.cb.hasBeenSubmitted
        = false := by
      rw [runOps_hasBeenSubmitted]; rfl
    simp [runLifecycle, CommandBuffer.dropRun, hsub]
  · cases hf : l.finisher <;> simp [Lifecycle.submitCount, hf]

/-- Witness for C1 at a concrete empty recording. -/
theorem c1_witness :
    runLifecycle (RecorderState.fresh 0 0 false) ⟨[], Finisher.dropCb⟩
      = Outcome.panicked []
    ∧ Lifecycle.submitCount ⟨[], Finisher.dropCb⟩ ≤ 1 := by
  have h := c1_drop_without_submit_panics 0 0 false [] ⟨[], Finisher.dropCb⟩ (by decide)
  exact ⟨h.1, h.2⟩

/-- C2: submitting a command buffer on which nothing was recorded performs no
native call at all (in particular no queue submission), returns success, marks
the buffer submitted, and dropping it afterwards does not panic. -/
theorem c2_noop_submit (handle queue : Nat) (dbg : Bool)
    (si : CommandBufferSubmitInfo) :
    runLifecycle (RecorderState.fresh handle queue dbg) ⟨[], Finisher.submitCb si⟩
      = Outcome.completed [] VkResult.success
    ∧ ((RecorderState.fresh handle queue dbg).cb.submitRun si).2.1 = []
    ∧ ((RecorderState.fresh handle queue dbg).cb.submitRun si).1.hasBeenSubmitted = true
    ∧ ((RecorderState.fresh handle queue dbg).cb.submitRun si).1.dropRun
        = DropOutcome.ok :=
  ⟨rfl, rfl, rfl, rfl⟩

/-- C3 (evaluation at the failing input): in the spec §8 clear scenario the
recorded attachment does carry native load op CLEAR with clear color
[0,0,0,1] and `submit` returns success, but `has_recorded_anything` is never
set by the render pass alone, so `submit` takes the no-op path: the trace
contains no queue submission (and no native end), and the recorded clear is
silently discarded instead of reaching the attachment. -/
theorem c3_clear_only_pass_is_discarded :
    (renderingInfoOf clearScenarioInfo).colorAttachments =
      [{ imageView := 1, imageLayout := 2, loadOp := VkAttachmentLoadOp.clear,
         storeOp := VkAttachmentStoreOp.store,
         clearValue := ClearValue.color (0, 0, 0, 1) }]
    ∧ validLifecycle (RecorderState.fresh 0 0 false) clearScenarioLifecycle = true
    ∧ runLifecycle (RecorderState.fresh 0 0 false) clearScenarioLifecycle
        = Outcome.completed
            [NativeCall.cmdBeginRendering (renderingInfoOf clearScenarioInfo),
             NativeCall.cmdEndRendering] VkResult.success
    ∧ (runLifecycle (RecorderState.fresh 0 0 false) clearScenarioLifecycle).calls.countP
        isQueueSubmit = 0 := by
  refine ⟨by decide, by decide, by decide, by decide⟩

/-- C4: ending a render-pass handle (the drop of `RenderPassCommand`, its
only ending path) issues exactly the native end-rendering call and returns
the recorder to `Recording` (`activePass = none`); and in any expressible
lifecycle that ends in `submit`, the begin/end rendering calls of the
recording balance exactly and the submission's native calls (none of which is
an end-rendering call) come strictly after all of them in the trace. -/
theorem c4_render_pass_closed_before_submit
    (s : RecorderState) (handle queue : Nat) (dbg : Bool) (ops : List Op)
    (si : CommandBufferSubmitInfo)
    (hrp : permitted s Op.endRenderPass = true)
    (hl : validLifecycle (RecorderState.fresh handle queue dbg)
      ⟨ops, Finisher.submitCb si⟩ = true) :
    (step s Op.endRenderPass).1.activePass = none
    ∧ (step s Op.endRenderPass).2 = [NativeCall.cmdEndRendering]
    ∧ (runOps (RecorderState.fresh handle queue dbg) ops).2.countP isBeginRendering
        = (runOps (RecorderState.fresh handle queue dbg) ops).2.countP isEndRendering
    ∧ runLifecycle (RecorderState.fresh handle queue dbg) ⟨ops, Finisher.submitCb si⟩
        = Outcome.completed
            ((runOps (RecorderState.fresh handle queue dbg) ops).2
              ++ ((runOps (RecorderState.fresh handle queue dbg) ops).1.cb.submitRun si).2.1)
            ((runOps (RecorderState.fresh handle queue dbg) ops).1.cb.submitRun si).2.2
    ∧ ((runOps (RecorderState.fresh handle queue dbg) ops).1.cb.submitRun si).2.1.countP
        isEndRendering = 0 := by
  simp only [validLifecycle, Bool.and_eq_true, Option.isNone_iff_eq_none] at hl
  refine ⟨?_, rfl, ?_, rfl, ?_⟩
  · simp [step]
  · have hb := runOps_balance ops (RecorderState.fresh handle queue dbg) hl.1
    have hd0 : (RecorderState.fresh handle queue dbg).depth = 0 := rfl
    have hd1 : (runOps (RecorderState.fresh handle queue dbg) ops).1.depth = 0 := by
      simp [RecorderState.depth, hl.2]
    omega
  · simp only [CommandBuffer.submitRun]
    split
    · rfl
    · simp [isEndRendering]

/-- Witness for C4 at a live render pass and an empty submitted lifecycle. -/
theorem c4_witness :
    (step passActiveState Op.endRenderPass).1.activePass = none
    ∧ (step passActiveState Op.endRenderPass).2 = [NativeCall.cmdEndRendering]
    ∧ (runOps (RecorderState.fresh 0 0 false) []).2.countP isBeginRendering
        = (runOps (RecorderState.fresh 0 0 false) []).2.countP isEndRendering
    ∧ runLifecycle (RecorderState.fresh 0 0 false)
        ⟨[], Finisher.submitCb CommandBufferSubmitInfo.default⟩
        = Outcome.completed
            ((runOps (RecorderState.fresh 0 0 false) []).2
              ++ (((runOps (RecorderState.fresh 0 0 false) []).1.cb.submitRun
                    CommandBufferSubmitInfo.default).2.1))
            (((runOps (RecorderState.fresh 0 0 false) []).1.cb.submitRun
                CommandBufferSubmitInfo.default).2.2)
    ∧ (((runOps (RecorderState.fresh 0 0 false) []).1.cb.submitRun
          CommandBufferSubmitInfo.default).2.1).countP isEndRendering = 0 :=
  c4_render_pass_closed_before_submit passActiveState
    0 0 false [] CommandBufferSubmitInfo.default (by decide) (by decide)

/-- C5 counterexample: a descriptor-set bind borrow-checks in the plain
`Recording` state with no render pass active (it is a `&self` method of
`CommandBuffer`), refuting "descriptor-set binds can be issued only while a
render pass is active". -/
theorem c5_counterexample_bind_outside_pass :
    permitted (RecorderState.fresh 0 0 false) (Op.bindDescriptorSets 0 0 0 []) = true
    ∧ (RecorderState.fresh 0 0 false).activePass = none := by
  decide

/-- C5 (amended): draws, pipeline binds, vertex/index binds, push constants
(and ending the pass) are expressible only while a render pass is active;
pipeline barriers (and beginning a pass) only in `Recording` outside any
render pass; descriptor-set binds (and debug labels) are expressible in both
states. -/
theorem c5_state_gating (s : RecorderState) (op : Op) :
    permitted s op = claimedPermitted s op := by
  cases op <;> cases hA : s.activePass <;>
    simp [permitted, claimedPermitted, Op.receiver, hA]

/-- C6 (evaluation at the failing input): before a draw with no explicit
viewport/scissor, the recorder derives both from the render area — but the
emitted viewport has `y = 0` and positive height (here 600), although the
adjacent source comment announces a height negation: there is no
flipped/negated-height viewport compensating the Y-axis convention. -/
theorem c6_default_viewport_is_not_flipped :
    prepareDrawCalls viewportScenarioPass =
      [NativeCall.cmdSetViewport
          { x := 0, y := 0, width := 800, height := 600, minDepth := 0, maxDepth := 1 },
        NativeCall.cmdSetScissor
          { offset := { x := 0, y := 0 }, extent := { width := 800, height := 600 } }]
    ∧ (0 : ℚ) < 600
    ∧ (step passActiveState (Op.draw 3 1 0 0)).2
        = prepareDrawCalls viewportScenarioPass ++ [NativeCall.cmdDraw 3 1 0 0] := by
  refine ⟨by decide, by decide, by decide⟩

/-- C7: submitting a command buffer that has recorded work ends the native
buffer and issues exactly one queue submission, carrying verbatim the
caller's wait semaphores, the caller's wait stage masks (paired index-wise by
the native structure), the caller's signal semaphores, and the caller's fence
when present (the null fence, `none`, when absent); and along a whole
lifecycle whose recording has marked work, the full trace contains exactly
one queue submission. -/
theorem c7_submit_issues_one_exact_submission
    (cb : CommandBuffer) (si : CommandBufferSubmitInfo) (ops : List Op)
    (s : RecorderState)
    (h : cb.hasRecordedAnything = true)
    (h2 : (runOps s ops).1.cb.hasRecordedAnything = true) :
    cb.submitRun si =
      ({ cb with hasBeenSubmitted := true },
        [NativeCall.endCommandBuffer,
         NativeCall.queueSubmit cb.targetQueue
           { waitSemaphores := si.waitSemaphores
             waitStages := si.waitStages
             commandBuffers := [cb.innerCommandBuffer]
             signalSemaphores := si.signalSemaphores
             fence := si.fence }],
        VkResult.success)
    ∧ (cb.submitRun si).2.1.countP isQueueSubmit = 1
    ∧ (runLifecycle s ⟨ops, Finisher.submitCb si⟩).calls.countP isQueueSubmit = 1 := by
  refine ⟨?_, ?_, ?_⟩
  · simp [CommandBuffer.submitRun, h]
  · simp [CommandBuffer.submitRun, h, isQueueSubmit, List.countP_cons]
  · have hz : (runOps s ops).2.countP isQueueSubmit = 0 := by
      rw [List.countP_eq_zero]
      intro c hc
      have := runOps_submission_free ops s c hc
      cases c <;> simp_all [isQueueSubmit, isSubmissionCall]
    simp [runLifecycle, Outcome.calls, CommandBuffer.submitRun, h2,
      List.countP_append, hz, isQueueSubmit, List.countP_cons]

/-- Witness for C7: a buffer that recorded a pipeline barrier. -/
theorem c7_witness :
    barrierCb.submitRun CommandBufferSubmitInfo.default =
      ({ barrierCb with hasBeenSubmitted := true },
        [NativeCall.endCommandBuffer,
         NativeCall.queueSubmit barrierCb.targetQueue
           { waitSemaphores := [], waitStages := [], commandBuffers := [0]
             signalSemaphores := [], fence := none }],
        VkResult.success)
    ∧ (barrierCb.submitRun CommandBufferSubmitInfo.default).2.1.countP isQueueSubmit = 1
    ∧ (runLifecycle (RecorderState.fresh 0 0 false)
        ⟨[Op.pipelineBarrier emptyBarrierInfo],
          Finisher.submitCb CommandBufferSubmitInfo.default⟩).calls.countP
        isQueueSubmit = 1 :=
  c7_submit_issues_one_exact_submission barrierCb CommandBufferSubmitInfo.default
    [Op.pipelineBarrier emptyBarrierInfo] (RecorderState.fresh 0 0 false)
    (by decide) (by decide)

/-- C8: dropping a `GpuBuffer`, an allocator-backed `GpuImage`, or a
`GpuDescriptorSet` returns its single allocation (or pool slot) to its
allocator exactly once, and strictly before any native-object destruction the
drop performs. -/
theorem c8_dealloc_strictly_before_destroy
    (b : GpuBuffer) (img : GpuImage) (aid : Nat) (alloc : MemoryAllocation)
    (d : GpuDescriptorSet)
    (h1 : img.allocatorId = some aid) (h2 : img.allocation = some alloc) :
    deallocatesOnceBeforeDestroy b.dropRun
    ∧ deallocatesOnceBeforeDestroy img.dropRun
    ∧ deallocatesOnceBeforeDestroy d.dropRun := by
  refine ⟨?_, ?_, ?_⟩
  · exact pair_dealloc_before_destroy _ _ rfl rfl
  · simp only [GpuImage.dropRun, h1, h2]
    exact pair_dealloc_before_destroy _ _ rfl rfl
  · exact single_dealloc_before_destroy _ rfl

/-- Witness for C8 at concrete resources. -/
theorem c8_witness :
    deallocatesOnceBeforeDestroy sampleBuffer.dropRun
    ∧ deallocatesOnceBeforeDestroy sampleImage.dropRun
    ∧ deallocatesOnceBeforeDestroy sampleDescriptorSet.dropRun :=
  c8_dealloc_strictly_before_destroy sampleBuffer sampleImage 3 sampleAllocation
    sampleDescriptorSet rfl rfl

/-- C9: a permitted recording step sets `has_recorded_anything` exactly when
the operation is a draw, an indexed draw or a pipeline barrier (and never
clears it); consequently a valid recording made only of non-marking
operations (render-pass begin/end, pipeline/descriptor-set/vertex/index
binds, push constants, debug labels) leaves the flag false, and its submit
takes the empty no-op path: the lifecycle trace is exactly the recording
trace, with no native end-command-buffer and no queue submission. -/
theorem c9_only_draws_and_barriers_mark
    (s0 : RecorderState) (op0 : Op) (handle queue : Nat) (dbg : Bool)
    (ops : List Op) (si : CommandBufferSubmitInfo)
    (hp : permitted s0 op0 = true)
    (hv : validOps (RecorderState.fresh handle queue dbg) ops = true)
    (hm : ∀ op ∈ ops, op.isMarking = false) :
    (step s0 op0).1.cb.hasRecordedAnything
      = (s0.cb.hasRecordedAnything || op0.isMarking)
    ∧ (runOps (RecorderState.fresh handle queue dbg) ops).1.cb.hasRecordedAnything
        = false
    ∧ runLifecycle (RecorderState.fresh handle queue dbg) ⟨ops, Finisher.submitCb si⟩
        = Outcome.completed (runOps (RecorderState.fresh handle queue dbg) ops).2
            VkResult.success
    ∧ (runLifecycle (RecorderState.fresh handle queue dbg)
          ⟨ops, Finisher.submitCb si⟩).calls.countP isSubmissionCall = 0 := by
  have hflag : (runOps (RecorderState.fresh handle queue dbg) ops).1.cb.hasRecordedAnything
      = false := by
    rw [runOps_hasRecordedAnything ops _ hv hm]; rfl
  have hlife : runLifecycle (RecorderState.fresh handle queue dbg)
      ⟨ops, Finisher.submitCb si⟩
      = Outcome.completed (runOps (RecorderState.fresh handle queue dbg) ops).2
          VkResult.success := by
    simp [runLifecycle, CommandBuffer.submitRun, hflag]
  refine ⟨step_hasRecordedAnything s0 op0 hp, hflag, hlife, ?_⟩
  rw [hlife]
  rw [Outcome.calls, List.countP_eq_zero]
  exact fun c hc => by
    simpa using runOps_submission_free ops (RecorderState.fresh handle queue dbg) c hc

/-- Witness for C9: a recording holding a full render pass with a pipeline
bind but no draw, then submitted. -/
theorem c9_witness :
    (step passActiveState (Op.bindPipeline 5)).1.cb.hasRecordedAnything
      = (passActiveState.cb.hasRecordedAnything || (Op.bindPipeline 5).isMarking)
    ∧ (runOps (RecorderState.fresh 0 0 false) nonMarkingOps).1.cb.hasRecordedAnything
        = false
    ∧ runLifecycle (RecorderState.fresh 0 0 false)
        ⟨nonMarkingOps, Finisher.submitCb CommandBufferSubmitInfo.default⟩
        = Outcome.completed (runOps (RecorderState.fresh 0 0 false) nonMarkingOps).2
            VkResult.success
    ∧ (runLifecycle (RecorderState.fresh 0 0 false)
          ⟨nonMarkingOps, Finisher.submitCb CommandBufferSubmitInfo.default⟩).calls.countP
        isSubmissionCall = 0 :=
  c9_only_draws_and_barriers_mark passActiveState (Op.bindPipeline 5) 0 0 false
    nonMarkingOps CommandBufferSubmitInfo.default (by decide) (by decide)
    (by decide)

/-- C10 counterexample: a zero-sized element type (`size_of::<I>() = 0`, as
for `I = ()`) makes `write_data` panic on a non-empty slice that satisfies
every precondition listed by the claim — the slice `[()]` is non-empty, the
offset 0 is below the allocation size 4, offset plus byte length (0) is at
most 4, and a persistent pointer exists — because the source asserts on the
byte length `size_of_val(data)`, not on slice emptiness. -/
theorem c10_counterexample_zero_sized_elements :
    zstScenarioBuffer.writeData [0, 0, 0, 0] 0 0 [[]] = none
    ∧ ([[]] : List (List Nat)) ≠ []
    ∧ 0 < zstScenarioBuffer.allocation.size
    ∧ 0 * ([([] : List Nat)]).length + 0 ≤ zstScenarioBuffer.allocation.size
    ∧ zstScenarioBuffer.allocation.persistentPtr.isSome = true := by
  refine ⟨by decide, by decide, by decide, by decide, by decide⟩

/-- C10 (amended): `write_data` panics unless the byte length of the data
(element size times element count) is positive, the offset is strictly below
the allocation size, offset plus byte length is at most the allocation size,
and the allocation carries a persistent pointer; when all hold, it copies
exactly the bytes of the data into the mapped memory at the offset, leaving
the bytes before and after untouched. -/
theorem c10_write_data_spec (b : GpuBuffer) (mem : List Nat) (offset elemSize : Nat)
    (data : List (List Nat))
    (helem : ∀ e ∈ data, e.length = elemSize) :
    (b.writeData mem offset elemSize data =
      if 0 < elemSize * data.length ∧ offset < b.allocation.size
          ∧ elemSize * data.length + offset ≤ b.allocation.size
          ∧ b.allocation.persistentPtr.isSome then
        some (mem.take offset ++ data.flatten
          ++ mem.drop (offset + elemSize * data.length))
      else none)
    ∧ data.flatten.length = elemSize * data.length := by
  constructor
  · by_cases h0 : elemSize * data.length = 0
    · simp [GpuBuffer.writeData, h0]
    · have hpos : 0 < elemSize * data.length := Nat.pos_of_ne_zero h0
      by_cases ho : offset < b.allocation.size
      · by_cases hle : elemSize * data.length + offset ≤ b.allocation.size
        · rcases hp : b.allocation.persistentPtr with _ | p
          · simp [GpuBuffer.writeData, h0, ho, hle, hp]
          · simp [GpuBuffer.writeData, h0, ho, hle, hp, hpos]
        · simp [GpuBuffer.writeData, h0, ho, hle]
      · simp [GpuBuffer.writeData, h0, ho]
  · induction data with
    | nil => simp
    | cons e rest ih =>
        have he : e.length = elemSize := helem e (by simp)
        have hr := ih (fun x hx => helem x (by simp [hx]))
        simp [List.flatten_cons, he, hr, Nat.mul_succ]
        ring

/-- Witness for C10 at a concrete two-byte-element write. -/
theorem c10_witness :
    (zstScenarioBuffer.writeData [9, 9, 9, 9] 1 2 [[5, 6]] =
      if 0 < 2 * ([[5, 6]] : List (List Nat)).length
          ∧ 1 < zstScenarioBuffer.allocation.size
          ∧ 2 * ([[5, 6]] : List (List Nat)).length + 1 ≤ zstScenarioBuffer.allocation.size
          ∧ zstScenarioBuffer.allocation.persistentPtr.isSome then
        some (([9, 9, 9, 9] : List Nat).take 1 ++ ([[5, 6]] : List (List Nat)).flatten
          ++ ([9, 9, 9, 9] : List Nat).drop (1 + 2 * ([[5, 6]] : List (List Nat)).length))
      else none)
    ∧ ([[5, 6]] : List (List Nat)).flatten.length
        = 2 * ([[5, 6]] : List (List Nat)).length :=
  c10_write_data_spec zstScenarioBuffer [9, 9, 9, 9] 1 2 [[5, 6]] (by decide)

end Vkl
